import Mathlib

/-!
Verification of the status-diffing Telegram notifier
(`1-Stream-Telegram-Bot.py`).

The script polls an authenticated dashboard, diffs per-server health
against the previous poll, and sends chat alerts on transitions.  We give
a shallow embedding of its logic:

* network responses become explicit inputs (`FetchInput`);
* the Python dict `prev_server_statuses` becomes an insertion-ordered
  association list (`StatusMap`) with Python-dict semantics;
* `bot.send_message` calls become elements of a returned `List Msg`,
  tagged with their destination chat;
* `print` diagnostics become a returned `List String` log;
* a Python `KeyError` (subscripting the empty dict `{}` that `get_data`
  substitutes for a failed dashboard fetch) becomes `Except.error`.
-/

namespace StreamBot

/-- License part of the dashboard-stats JSON: `license.status`,
`license.product_name`. -/
structure License where
  status : String
  product_name : String
  deriving DecidableEq

/-- Parsed dashboard-stats JSON.  The script reads
`connections.total`, `streams.total`, `users.total` (numbers, shown via
string interpolation) and the nested `license` object. -/
structure Dashboard where
  connections_total : Nat
  streams_total : Nat
  users_total : Nat
  license : License
  deriving DecidableEq

/-- One element of the servers JSON array.  The diff logic uses only
`name` and `health_status`; the remaining fields are read by
`format_servers_info`.  `load_avg_*` are floating-point in the JSON and
are only ever interpolated into display text, so we keep their rendered
text. -/
structure Server where
  name : String
  ip : String
  domain : String
  health_status : String
  live_streams : Nat
  online_streams : Nat
  load_avg_1 : String
  load_avg_5 : String
  load_avg_15 : String
  connected_clients : Nat
  version : String
  deriving DecidableEq

/-- Outcome of one authenticated GET, as the script distinguishes them:
HTTP 200 with a JSON body that parses into the expected shape, HTTP 200
whose body makes `.json()` raise `ValueError`, or a non-200 status. -/
inductive FetchResp (α : Type) where
  | ok (body : α)
  | nonJson
  | httpError (code : Nat)
  deriving DecidableEq

/-- The environment of one `get_data` call: whether the login POST
succeeded (`response.ok and "dashboard" in response.url`) and the two GET
responses. -/
structure FetchInput where
  loginOk : Bool
  dashboardResp : FetchResp Dashboard
  serversResp : FetchResp (List Server)
  deriving DecidableEq

/-- The dict `get_data` returns on the login-success path.
`dashboard = none` models the placeholder empty dict `{}` left when the
dashboard fetch failed; a failed servers fetch leaves the placeholder
`[]`. -/
structure FetchResult where
  dashboard : Option Dashboard
  servers : List Server
  deriving DecidableEq

/-- `get_data()`: returns `None` when login fails, otherwise the
composite dict, with each component replaced by its empty placeholder on
an HTTP error or a non-JSON body.  Second component: the `print`ed
diagnostics. -/
def get_data (inp : FetchInput) : Option FetchResult × List String :=
  if inp.loginOk then
    let dashPart : Option Dashboard × List String :=
      match inp.dashboardResp with
      | .ok d => (some d, [])
      | .nonJson => (none, ["Error: Received non-JSON response"])
      | .httpError c =>
          (none, ["Error: Unable to retrieve dashboard stats, status code " ++ toString c])
    let srvPart : List Server × List String :=
      match inp.serversResp with
      | .ok s => (s, [])
      | .nonJson => ([], ["Error: Received non-JSON response"])
      | .httpError c =>
          ([], ["Error: Unable to retrieve servers info, status code " ++ toString c])
    (some ⟨dashPart.1, srvPart.1⟩, "Login successful!" :: (dashPart.2 ++ srvPart.2))
  else
    (none, ["Login failed."])

/-- The global `prev_server_statuses`: a Python dict from server name to
last-observed health status, modelled as an insertion-ordered
association list with unique keys. -/
abbrev StatusMap := List (String × String)

/-- Python dict assignment `m[k] = v`: update in place if the key
exists, else append. -/
def dictInsert : StatusMap → String → String → StatusMap
  | [], k, v => [(k, v)]
  | (k', v') :: rest, k, v =>
      if k' = k then (k, v) :: rest else (k', v') :: dictInsert rest k v

/-- Python dict subscript `m[k]`, as an `Option`. -/
def dictGet : StatusMap → String → Option String
  | [], _ => none
  | (k', v') :: rest, k => if k' = k then some v' else dictGet rest k

/-- Python membership test `k in m`. -/
def dictHas (m : StatusMap) (k : String) : Bool :=
  (dictGet m k).isSome

/-- Destination chat of a `bot.send_message`: the configured alert
channel `telegram_chat_id`, or the requesting chat
`update.effective_chat.id` of a `/status` reply. -/
inductive Dest where
  | channel
  | requester
  deriving DecidableEq

/-- Payload of an outbound message: the three alert texts of the poller,
or a `/status` report. -/
inductive Payload where
  | degraded (name status : String)
  | recovered (name status : String)
  | licenseInactive
  | report (text : String)
  deriving DecidableEq

/-- One `bot.send_message` call. -/
structure Msg where
  dest : Dest
  payload : Payload
  deriving DecidableEq

/-- The alert(s) the loop body of `notify_server_status` sends for one
server, checked against the poll-start map `prev`:

```
if server_name in prev_server_statuses and prev_server_statuses[server_name] != health_status:
    if health_status != "online":        # degraded
    elif health_status == "online":      # recovered
```
-/
def alertsFor (prev : StatusMap) (s : Server) : List Msg :=
  if dictHas prev s.name ∧ dictGet prev s.name ≠ some s.health_status then
    if s.health_status ≠ "online" then
      [⟨Dest.channel, Payload.degraded s.name s.health_status⟩]
    else if s.health_status = "online" then
      [⟨Dest.channel, Payload.recovered s.name s.health_status⟩]
    else []
  else []

/-- The `for server in servers:` loop of `notify_server_status`: builds
`current_statuses` while emitting alerts against the unchanged `prev`. -/
def statusLoop (prev : StatusMap) : List Server → StatusMap → List Msg × StatusMap
  | [], cur => ([], cur)
  | s :: rest, cur =>
      let next := statusLoop prev rest (dictInsert cur s.name s.health_status)
      (alertsFor prev s ++ next.1, next.2)

/-- `notify_server_status`: on `data` falsy (`None`) nothing happens;
otherwise run the loop over `data["servers"]` starting from the empty
`current_statuses` and finish with
`prev_server_statuses = current_statuses`. -/
def notify_server_status (prev : StatusMap) (data : Option FetchResult) :
    List Msg × StatusMap :=
  match data with
  | none => ([], prev)
  | some d => statusLoop prev d.servers []

/-- `notify_if_license_inactive`: `if data and
data["dashboard"]["license"]["status"] != "Active"`.  When the dashboard
part is the failure placeholder `{}`, subscripting it with `"license"`
raises `KeyError`, modelled as `Except.error`. -/
def notify_if_license_inactive (data : Option FetchResult) :
    Except Unit (List Msg) :=
  match data with
  | none => Except.ok []
  | some d =>
      match d.dashboard with
      | none => Except.error ()
      | some dash =>
          if dash.license.status ≠ "Active" then
            Except.ok [⟨Dest.channel, Payload.licenseInactive⟩]
          else
            Except.ok []

/-- `poll_status`: one timer tick awaits `notify_if_license_inactive`
then `notify_server_status`, each making its own `get_data` call.  An
exception in the license half propagates, so the diff half never runs
and the map keeps its prior value. -/
def poll_status (i1 i2 : FetchInput) (prev : StatusMap) :
    Except Unit (List Msg) × StatusMap :=
  match notify_if_license_inactive (get_data i1).1 with
  | Except.error e => (Except.error e, prev)
  | Except.ok licMsgs =>
      let diff := notify_server_status prev (get_data i2).1
      (Except.ok (licMsgs ++ diff.1), diff.2)

/-- Messages actually delivered by one cycle: on an exception the raise
happens before any send, so nothing went out. -/
def sentMsgs : Except Unit (List Msg) → List Msg
  | Except.ok ms => ms
  | Except.error _ => []

/-- A run of consecutive `run_repeating` ticks; the job queue catches a
cycle's exception and the next tick still fires. -/
def runCycles : List (FetchInput × FetchInput) → StatusMap → List Msg × StatusMap
  | [], prev => ([], prev)
  | (i1, i2) :: rest, prev =>
      let cycle := poll_status i1 i2 prev
      let later := runCycles rest cycle.2
      (sentMsgs cycle.1 ++ later.1, later.2)

/-- `format_dashboard_stats`. -/
def format_dashboard_stats (d : Dashboard) : String :=
  "**Dashboard Stats**\n" ++
  "- Total Connections: " ++ toString d.connections_total ++ "\n" ++
  "- Total Streams: " ++ toString d.streams_total ++ "\n" ++
  "- Total Users: " ++ toString d.users_total ++ "\n" ++
  "- License Status: " ++ d.license.status ++ "\n" ++
  "- License Product Name: " ++ d.license.product_name ++ "\n"

/-- `format_servers_info`. -/
def format_servers_info (servers : List Server) : String :=
  "\n**Servers Info**\n" ++ String.join (servers.map (fun s =>
    "\n**" ++ s.name ++ "**\n" ++
    "- IP: " ++ s.ip ++ "\n" ++
    "- Domain: " ++ s.domain ++ "\n" ++
    "- Status: " ++ s.health_status ++ "\n" ++
    "- Live Streams: " ++ toString s.live_streams ++ "\n" ++
    "- Online Streams: " ++ toString s.online_streams ++ "\n" ++
    "- Load (1/5/15): " ++ s.load_avg_1 ++ "/" ++ s.load_avg_5 ++ "/" ++ s.load_avg_15 ++ "\n" ++
    "- Connected Clients: " ++ toString s.connected_clients ++ "\n" ++
    "- Version: " ++ s.version ++ "\n"))

/-- `send_report`, the `/status` handler: fetch, and when `data` is
truthy reply to the requesting chat with the formatted snapshot.  The
function never touches `prev_server_statuses`, which we express by
threading the map through unchanged.  When the dashboard part is the
failure placeholder `{}`, `format_dashboard_stats` raises `KeyError`
before any send. -/
def send_report (i : FetchInput) (prev : StatusMap) :
    Except Unit (List Msg) × StatusMap :=
  match (get_data i).1 with
  | none => (Except.ok [], prev)
  | some d =>
      match d.dashboard with
      | none => (Except.error (), prev)
      | some dash =>
          (Except.ok [⟨Dest.requester,
            Payload.report (format_dashboard_stats dash ++ format_servers_info d.servers)⟩],
           prev)

/-- The map `current_statuses` that the loop builds from a servers list
(insertion order of the list, last occurrence of a duplicated name
winning, exactly as the Python dict does). -/
def currentStatuses (servers : List Server) : StatusMap :=
  servers.foldl (fun cur s => dictInsert cur s.name s.health_status) []

/-- Name mentioned by a transition alert, if any. -/
def msgName : Msg → Option String
  | ⟨_, Payload.degraded n _⟩ => some n
  | ⟨_, Payload.recovered n _⟩ => some n
  | _ => none

/-- Whether a message is the license-inactive alert. -/
def isLicenseMsg (m : Msg) : Bool :=
  match m.payload with
  | Payload.licenseInactive => true
  | _ => false

/-- Number of license-inactive alerts in a batch of messages. -/
def countLicense (ms : List Msg) : Nat :=
  ms.countP isLicenseMsg

section Lemmas

theorem statusLoop_eq (prev : StatusMap) (ss : List Server) (cur : StatusMap) :
    statusLoop prev ss cur =
      (ss.flatMap (alertsFor prev),
       ss.foldl (fun c s => dictInsert c s.name s.health_status) cur) := by
  induction ss generalizing cur with
  | nil => rfl
  | cons s rest ih => simp [statusLoop, ih]

theorem dictGet_insert_self (m : StatusMap) (k v : String) :
    dictGet (dictInsert m k v) k = some v := by
  induction m with
  | nil => simp [dictInsert, dictGet]
  | cons p rest ih =>
      by_cases h : p.1 = k <;> simp [dictInsert, dictGet, h, ih]

theorem dictGet_insert_ne (m : StatusMap) (k v k' : String) (h : k' ≠ k) :
    dictGet (dictInsert m k v) k' = dictGet m k' := by
  induction m with
  | nil => simp [dictInsert, dictGet, Ne.symm h]
  | cons p rest ih =>
      by_cases hp : p.1 = k
      · simp [dictInsert, dictGet, hp, Ne.symm h]
      · by_cases hp' : p.1 = k' <;> simp [dictInsert, dictGet, hp, hp', h, ih]

theorem dictHas_insert (m : StatusMap) (k v k' : String) :
    dictHas (dictInsert m k v) k' = true ↔ (k' = k ∨ dictHas m k' = true) := by
  by_cases h : k' = k
  · subst h; simp [dictHas, dictGet_insert_self]
  · simp [dictHas, dictGet_insert_ne m k v k' h, h]

theorem dictGet_statusFold_of_not_mem (ss : List Server) (cur : StatusMap)
    (k : String) (h : k ∉ ss.map Server.name) :
    dictGet (ss.foldl (fun c s => dictInsert c s.name s.health_status) cur) k =
      dictGet cur k := by
  induction ss generalizing cur with
  | nil => rfl
  | cons s rest ih =>
      simp only [List.map_cons, List.mem_cons] at h
      push_neg at h
      simp only [List.foldl_cons]
      rw [ih _ h.2, dictGet_insert_ne _ _ _ _ h.1]

theorem dictGet_statusFold_of_mem (ss : List Server) (cur : StatusMap)
    (s : Server) (hmem : s ∈ ss) (hnd : (ss.map Server.name).Nodup) :
    dictGet (ss.foldl (fun c s => dictInsert c s.name s.health_status) cur) s.name =
      some s.health_status := by
  induction ss generalizing cur with
  | nil => cases hmem
  | cons t rest ih =>
      simp only [List.map_cons, List.nodup_cons] at hnd
      rcases List.mem_cons.mp hmem with h | h
      · subst h
        simp only [List.foldl_cons]
        rw [dictGet_statusFold_of_not_mem _ _ _ hnd.1, dictGet_insert_self]
      · exact ih _ h hnd.2

theorem dictHas_statusFold (ss : List Server) (cur : StatusMap) (k : String) :
    dictHas (ss.foldl (fun c s => dictInsert c s.name s.health_status) cur) k = true ↔
      (k ∈ ss.map Server.name ∨ dictHas cur k = true) := by
  induction ss generalizing cur with
  | nil => simp
  | cons s rest ih =>
      simp only [List.foldl_cons, List.map_cons, List.mem_cons]
      rw [ih, dictHas_insert]
      tauto

theorem dictHas_currentStatuses (ss : List Server) (k : String) :
    dictHas (currentStatuses ss) k = true ↔ k ∈ ss.map Server.name := by
  rw [currentStatuses, dictHas_statusFold]
  simp [dictHas, dictGet]

theorem alertsFor_not_license (prev : StatusMap) (s : Server) (m : Msg)
    (hm : m ∈ alertsFor prev s) : isLicenseMsg m = false := by
  unfold alertsFor at hm
  split at hm
  · split at hm
    · simp at hm; subst hm; rfl
    · split at hm
      · simp at hm; subst hm; rfl
      · cases hm
  · cases hm

theorem alertsFor_name (prev : StatusMap) (s : Server) (m : Msg)
    (hm : m ∈ alertsFor prev s) : msgName m = some s.name := by
  unfold alertsFor at hm
  split at hm
  · split at hm
    · simp at hm; subst hm; rfl
    · split at hm
      · simp at hm; subst hm; rfl
      · cases hm
  · cases hm

theorem countLicense_statusLoop (prev : StatusMap) (ss : List Server) :
    countLicense (statusLoop prev ss []).1 = 0 := by
  rw [statusLoop_eq, countLicense, List.countP_eq_zero]
  intro m hm
  rcases List.mem_flatMap.mp hm with ⟨s, _, hms⟩
  simp [alertsFor_not_license prev s m hms]

theorem countLicense_append (a b : List Msg) :
    countLicense (a ++ b) = countLicense a + countLicense b :=
  List.countP_append ..

theorem countLicense_notify (prev : StatusMap) (data : Option FetchResult) :
    countLicense (notify_server_status prev data).1 = 0 := by
  cases data with
  | none => rfl
  | some d => exact countLicense_statusLoop prev d.servers

end Lemmas

/-- The dashboard component `get_data` ends up returning for a given
dashboard-GET outcome: the parsed record, or the empty placeholder. -/
def dashOf : FetchResp Dashboard → Option Dashboard
  | .ok d => some d
  | .nonJson => none
  | .httpError _ => none

/-- The servers component `get_data` ends up returning for a given
servers-GET outcome: the parsed list, or the empty placeholder. -/
def serversOf : FetchResp (List Server) → List Server
  | .ok s => s
  | .nonJson => []
  | .httpError _ => []

/-- The per-server alert rule as the specification words it: an alert
exactly when the name exists in `previous` with a different status —
RECOVERED when the new status is `"online"`, DEGRADED (carrying the new
status) otherwise. -/
def claimAlert (prev : StatusMap) (s : Server) : List Msg :=
  if dictHas prev s.name ∧ dictGet prev s.name ≠ some s.health_status then
    if s.health_status = "online" then
      [⟨Dest.channel, Payload.recovered s.name s.health_status⟩]
    else
      [⟨Dest.channel, Payload.degraded s.name s.health_status⟩]
  else []

theorem alertsFor_eq_claimAlert (prev : StatusMap) (s : Server) :
    alertsFor prev s = claimAlert prev s := by
  unfold alertsFor claimAlert
  by_cases h1 : dictHas prev s.name ∧ dictGet prev s.name ≠ some s.health_status
  · by_cases h2 : s.health_status = "online" <;> simp [h1, h2]
  · simp [h1]

/-- Claim C1: for every previous `StatusMap` and current server list,
the Status Differ emits, per server of `current`, exactly the alert the
spec prescribes — one DEGRADED alert carrying the new status when the
name exists in `previous` with a different status and the new status is
not `"online"`, one RECOVERED alert when it is `"online"`, and no alert
for a first sighting or an unchanged status — in the iteration order of
`current`. -/
theorem C1_transition_alerts (prev : StatusMap) (d : FetchResult) :
    (notify_server_status prev (some d)).1 = d.servers.flatMap (claimAlert prev) := by
  show (statusLoop prev d.servers []).1 = _
  rw [statusLoop_eq]
  show d.servers.flatMap (alertsFor prev) = _
  rw [show alertsFor prev = claimAlert prev from funext fun s => alertsFor_eq_claimAlert prev s]

/-- Claim C4: with an empty previous `StatusMap` the Differ emits zero
alerts, and (names being keys) the resulting `StatusMap` maps each
server name of `current` to exactly that server's `health_status`, and
holds no other key. -/
theorem C4_first_poll (dd : Option Dashboard) (servers : List Server) :
    (notify_server_status [] (some ⟨dd, servers⟩)).1 = [] ∧
    ((servers.map Server.name).Nodup →
      ∀ s ∈ servers,
        dictGet (notify_server_status [] (some ⟨dd, servers⟩)).2 s.name =
          some s.health_status) ∧
    (∀ k, dictHas (notify_server_status [] (some ⟨dd, servers⟩)).2 k = true ↔
      k ∈ servers.map Server.name) := by
  have hloop := statusLoop_eq ([] : StatusMap) servers []
  refine ⟨?_, ?_, ?_⟩
  · show (statusLoop [] servers []).1 = []
    rw [hloop]
    simp [alertsFor, dictHas, dictGet]
  · intro hnd s hs
    show dictGet (statusLoop [] servers []).2 s.name = _
    rw [hloop]
    exact dictGet_statusFold_of_mem servers [] s hs hnd
  · intro k
    show dictHas (statusLoop [] servers []).2 k = true ↔ _
    rw [hloop]
    simpa [dictHas, dictGet] using dictHas_statusFold servers [] k

/-- Claim C4 witness at a concrete one-server list. -/
theorem C4_first_poll_witness :
    (notify_server_status []
      (some ⟨none, [⟨"A", "ip", "dom", "online", 0, 0, "0", "0", "0", 0, "v"⟩]⟩)).1 = [] ∧
    dictGet (notify_server_status []
      (some ⟨none, [⟨"A", "ip", "dom", "online", 0, 0, "0", "0", "0", 0, "v"⟩]⟩)).2 "A" =
      some "online" := by
  refine ⟨(C4_first_poll none _).1, ?_⟩
  exact (C4_first_poll none _).2.1 (by decide)
    ⟨"A", "ip", "dom", "online", 0, 0, "0", "0", "0", 0, "v"⟩ (by simp)

/-- Claim C5: after a successful poll the `StatusMap` is wholly replaced
by the map computed from `current` alone — its key set is exactly the
names occurring in `current` — and every emitted alert names a server of
`current`, so a name dropped from `current` vanishes silently. -/
theorem C5_full_replacement (prev : StatusMap) (dd : Option Dashboard)
    (servers : List Server) :
    (notify_server_status prev (some ⟨dd, servers⟩)).2 = currentStatuses servers ∧
    (∀ k, dictHas (notify_server_status prev (some ⟨dd, servers⟩)).2 k = true ↔
      k ∈ servers.map Server.name) ∧
    (∀ m ∈ (notify_server_status prev (some ⟨dd, servers⟩)).1,
      ∃ s ∈ servers, msgName m = some s.name) := by
  have hloop := statusLoop_eq prev servers []
  have h2 : (notify_server_status prev (some ⟨dd, servers⟩)).2 = currentStatuses servers := by
    show (statusLoop prev servers []).2 = _
    rw [hloop]; rfl
  refine ⟨h2, ?_, ?_⟩
  · intro k
    rw [h2]
    exact dictHas_currentStatuses servers k
  · intro m hm
    have : m ∈ servers.flatMap (alertsFor prev) := by
      have h1 : (notify_server_status prev (some ⟨dd, servers⟩)).1 =
          servers.flatMap (alertsFor prev) := by
        show (statusLoop prev servers []).1 = _
        rw [hloop]
      rwa [h1] at hm
    rcases List.mem_flatMap.mp this with ⟨s, hs, hms⟩
    exact ⟨s, hs, alertsFor_name prev s m hms⟩

/-- Claim C5 witness: a name present before and absent from `current`
disappears from the map, and the replacement map is that of `current`. -/
theorem C5_full_replacement_witness :
    (notify_server_status [("B", "online")] (some ⟨none, []⟩)).2 = currentStatuses [] ∧
    ¬ (dictHas (notify_server_status [("B", "online")] (some ⟨none, []⟩)).2 "B" = true) := by
  refine ⟨(C5_full_replacement [("B", "online")] none []).1, ?_⟩
  intro h
  have := ((C5_full_replacement [("B", "online")] none []).2.1 "B").mp h
  simp at this

/-- Claim C6: the Differ is idempotent — rerun on the same `current`
with `previous` already equal to the map of `current`'s names to their
health values (names being keys), it emits zero alerts. -/
theorem C6_idempotent (dd : Option Dashboard) (servers : List Server)
    (hnd : (servers.map Server.name).Nodup) :
    (notify_server_status (currentStatuses servers) (some ⟨dd, servers⟩)).1 = [] := by
  show (statusLoop (currentStatuses servers) servers []).1 = []
  rw [statusLoop_eq]
  rw [List.flatMap_eq_nil_iff]
  intro s hs
  unfold alertsFor
  rw [currentStatuses, dictGet_statusFold_of_mem servers [] s hs hnd]
  simp

/-- Claim C6 witness at a concrete one-server list. -/
theorem C6_idempotent_witness :
    (notify_server_status
      (currentStatuses [⟨"A", "ip", "dom", "online", 0, 0, "0", "0", "0", 0, "v"⟩])
      (some ⟨none, [⟨"A", "ip", "dom", "online", 0, 0, "0", "0", "0", 0, "v"⟩]⟩)).1 = [] :=
  C6_idempotent none _ (by decide)

/-- Claim C2 counterexample: a poll cycle whose servers GET fails with
HTTP 500 (the fetch fails, in the claim's sense) does NOT retain the
prior `StatusMap` — the fetcher returns `{"dashboard": ..., "servers": []}`,
a truthy dict, and the differ replaces the map with the empty one. -/
theorem C2_fetch_failure_counterexample :
    (notify_server_status [("A", "online")]
      (get_data ⟨true, FetchResp.ok ⟨0, 0, 0, ⟨"Active", "P"⟩⟩,
        FetchResp.httpError 500⟩).1).2 ≠ [("A", "online")] := by
  decide

/-- Claim C2 amended: a failed poll cycle never crashes the differ and
is logged, but the `StatusMap` is retained only when the login fails
(the fetcher returns `None`); when login succeeds and a servers GET
fails with an HTTP error or a non-JSON body, the fetcher returns an
empty servers list that the differ treats as a successful poll, so the
`StatusMap` is replaced by the empty map. -/
theorem C2_amended_failure_handling (prev : StatusMap) (i : FetchInput) :
    (i.loginOk = false →
      notify_server_status prev (get_data i).1 = ([], prev) ∧
      "Login failed." ∈ (get_data i).2) ∧
    (∀ c, i.loginOk = true → i.serversResp = FetchResp.httpError c →
      (notify_server_status prev (get_data i).1).2 = [] ∧
      ("Error: Unable to retrieve servers info, status code " ++ toString c) ∈
        (get_data i).2) ∧
    (i.loginOk = true → i.serversResp = FetchResp.nonJson →
      (notify_server_status prev (get_data i).1).2 = [] ∧
      "Error: Received non-JSON response" ∈ (get_data i).2) := by
  obtain ⟨lo, dr, sr⟩ := i
  refine ⟨fun h => ?_, fun c h1 h2 => ?_, fun h1 h2 => ?_⟩
  · subst h
    simp [get_data, notify_server_status]
  · subst h1; subst h2
    cases dr <;> simp [get_data, notify_server_status, statusLoop]
  · subst h1; subst h2
    cases dr <;> simp [get_data, notify_server_status, statusLoop]

/-- Claim C2 amended witness: a failed login retains a concrete map and
logs; a failed servers GET clears it and logs. -/
theorem C2_amended_failure_handling_witness :
    (notify_server_status [("A", "online")]
        (get_data ⟨false, FetchResp.nonJson, FetchResp.nonJson⟩).1 =
      ([], [("A", "online")]) ∧
      "Login failed." ∈ (get_data ⟨false, FetchResp.nonJson, FetchResp.nonJson⟩).2) ∧
    ((notify_server_status [("A", "online")]
        (get_data ⟨true, FetchResp.ok ⟨0, 0, 0, ⟨"Active", "P"⟩⟩,
          FetchResp.httpError 500⟩).1).2 = [] ∧
      ("Error: Unable to retrieve servers info, status code " ++ toString 500) ∈
        (get_data ⟨true, FetchResp.ok ⟨0, 0, 0, ⟨"Active", "P"⟩⟩,
          FetchResp.httpError 500⟩).2) :=
  ⟨(C2_amended_failure_handling [("A", "online")] _).1 rfl,
   (C2_amended_failure_handling [("A", "online")] _).2.1 500 rfl rfl⟩

/-- Claim C3 counterexample: when login succeeds but the servers GET
fails with HTTP 500, `get_data` does not return its failure signal: the
result is not `None`, and it is the very value returned by a fully
successful invocation whose servers list is empty — indistinguishable
from success. -/
theorem C3_failure_signal_counterexample :
    (get_data ⟨true, FetchResp.ok ⟨0, 0, 0, ⟨"Active", "P"⟩⟩,
      FetchResp.httpError 500⟩).1 ≠ none ∧
    (get_data ⟨true, FetchResp.ok ⟨0, 0, 0, ⟨"Active", "P"⟩⟩,
      FetchResp.httpError 500⟩).1 =
    (get_data ⟨true, FetchResp.ok ⟨0, 0, 0, ⟨"Active", "P"⟩⟩,
      FetchResp.ok []⟩).1 := by
  exact ⟨by decide, by decide⟩

/-- Claim C3 amended: the Data Fetcher returns `None` exactly when login
fails; whenever login succeeds it returns the composite
`{dashboard, servers}`, a component that suffered an HTTP error or a
non-JSON body being replaced by its empty placeholder (`{}` / `[]`),
which is not distinguishable from a successful fetch of empty data. -/
theorem C3_amended_fetcher_result (i : FetchInput) :
    ((get_data i).1 = none ↔ i.loginOk = false) ∧
    (i.loginOk = true →
      (get_data i).1 = some ⟨dashOf i.dashboardResp, serversOf i.serversResp⟩) := by
  obtain ⟨lo, dr, sr⟩ := i
  cases lo <;>
    cases dr <;> cases sr <;> simp [get_data, dashOf, serversOf]

/-- Claim C3 amended witness at concrete inputs. -/
theorem C3_amended_fetcher_result_witness :
    (get_data ⟨false, FetchResp.nonJson, FetchResp.nonJson⟩).1 = none ∧
    (get_data ⟨true, FetchResp.nonJson, FetchResp.httpError 404⟩).1 =
      some ⟨dashOf FetchResp.nonJson, serversOf (FetchResp.httpError 404)⟩ :=
  ⟨(C3_amended_fetcher_result ⟨false, FetchResp.nonJson, FetchResp.nonJson⟩).1.mpr rfl,
   (C3_amended_fetcher_result ⟨true, FetchResp.nonJson, FetchResp.httpError 404⟩).2 rfl⟩

/-- Claim C8: when the Fetcher signals `LoginFailed` (it returns `None`),
the Differ does not run: no alerts are emitted and the `StatusMap` is
exactly its prior value. -/
theorem C8_login_failed_isolation (prev : StatusMap) (i : FetchInput)
    (h : i.loginOk = false) :
    (get_data i).1 = none ∧
    notify_server_status prev (get_data i).1 = ([], prev) := by
  obtain ⟨lo, dr, sr⟩ := i
  subst h
  simp [get_data, notify_server_status]

/-- Claim C8 witness at a concrete failed login and nonempty prior map. -/
theorem C8_login_failed_isolation_witness :
    (get_data ⟨false, FetchResp.nonJson, FetchResp.nonJson⟩).1 = none ∧
    notify_server_status [("A", "offline")]
      (get_data ⟨false, FetchResp.nonJson, FetchResp.nonJson⟩).1 =
      ([], [("A", "offline")]) :=
  C8_login_failed_isolation [("A", "offline")] ⟨false, FetchResp.nonJson, FetchResp.nonJson⟩ rfl

theorem get_data_fst (i : FetchInput) :
    (get_data i).1 =
      if i.loginOk then some ⟨dashOf i.dashboardResp, serversOf i.serversResp⟩
      else none := by
  obtain ⟨lo, dr, sr⟩ := i
  cases lo <;> cases dr <;> cases sr <;> simp [get_data, dashOf, serversOf]

theorem countLicense_poll_inactive (i1 i2 : FetchInput) (prev : StatusMap)
    (dash : Dashboard) (h1 : i1.loginOk = true)
    (h2 : i1.dashboardResp = FetchResp.ok dash)
    (h3 : dash.license.status ≠ "Active") :
    countLicense (sentMsgs (poll_status i1 i2 prev).1) = 1 := by
  have hmain : poll_status i1 i2 prev =
      (Except.ok ((⟨Dest.channel, Payload.licenseInactive⟩ : Msg) ::
        (notify_server_status prev (get_data i2).1).1),
       (notify_server_status prev (get_data i2).1).2) := by
    simp [poll_status, get_data_fst, h1, h2, h3, dashOf, notify_if_license_inactive]
  rw [hmain]
  show countLicense ((⟨Dest.channel, Payload.licenseInactive⟩ : Msg) ::
    (notify_server_status prev (get_data i2).1).1) = 1
  unfold countLicense
  rw [List.countP_cons]
  have h0 := countLicense_notify prev (get_data i2).1
  unfold countLicense at h0
  rw [h0]
  rfl

/-- Claim C7: a poll whose fetched dashboard carries a license status
other than `"Active"` emits exactly one license-inactive alert, with no
deduplication across polls: three consecutive polls each observing
`"Suspended"` emit exactly three. -/
theorem C7_license_alert_repetition :
    (∀ (i1 i2 : FetchInput) (prev : StatusMap) (dash : Dashboard),
      i1.loginOk = true → i1.dashboardResp = FetchResp.ok dash →
      dash.license.status ≠ "Active" →
      countLicense (sentMsgs (poll_status i1 i2 prev).1) = 1) ∧
    (∀ (i1 i2 i3 i4 i5 i6 : FetchInput) (prev : StatusMap) (d1 d2 d3 : Dashboard),
      i1.loginOk = true → i1.dashboardResp = FetchResp.ok d1 →
      d1.license.status = "Suspended" →
      i3.loginOk = true → i3.dashboardResp = FetchResp.ok d2 →
      d2.license.status = "Suspended" →
      i5.loginOk = true → i5.dashboardResp = FetchResp.ok d3 →
      d3.license.status = "Suspended" →
      countLicense (runCycles [(i1, i2), (i3, i4), (i5, i6)] prev).1 = 3) := by
  constructor
  · exact countLicense_poll_inactive
  · intro i1 i2 i3 i4 i5 i6 prev d1 d2 d3 h1 h2 h3 h4 h5 h6 h7 h8 h9
    have n1 : d1.license.status ≠ "Active" := by rw [h3]; decide
    have n2 : d2.license.status ≠ "Active" := by rw [h6]; decide
    have n3 : d3.license.status ≠ "Active" := by rw [h9]; decide
    simp [runCycles, countLicense_append,
      countLicense_poll_inactive i1 i2 _ d1 h1 h2 n1,
      countLicense_poll_inactive i3 i4 _ d2 h4 h5 n2,
      countLicense_poll_inactive i5 i6 _ d3 h7 h8 n3]

/-- Claim C7 witness at three concrete suspended polls. -/
theorem C7_license_alert_repetition_witness :
    countLicense (sentMsgs (poll_status
      ⟨true, FetchResp.ok ⟨0, 0, 0, ⟨"Suspended", "P"⟩⟩, FetchResp.ok []⟩
      ⟨true, FetchResp.ok ⟨0, 0, 0, ⟨"Suspended", "P"⟩⟩, FetchResp.ok []⟩ []).1) = 1 ∧
    countLicense (runCycles
      [(⟨true, FetchResp.ok ⟨0, 0, 0, ⟨"Suspended", "P"⟩⟩, FetchResp.ok []⟩,
        ⟨true, FetchResp.ok ⟨0, 0, 0, ⟨"Suspended", "P"⟩⟩, FetchResp.ok []⟩),
       (⟨true, FetchResp.ok ⟨0, 0, 0, ⟨"Suspended", "P"⟩⟩, FetchResp.ok []⟩,
        ⟨true, FetchResp.ok ⟨0, 0, 0, ⟨"Suspended", "P"⟩⟩, FetchResp.ok []⟩),
       (⟨true, FetchResp.ok ⟨0, 0, 0, ⟨"Suspended", "P"⟩⟩, FetchResp.ok []⟩,
        ⟨true, FetchResp.ok ⟨0, 0, 0, ⟨"Suspended", "P"⟩⟩, FetchResp.ok []⟩)] []).1 = 3 :=
  ⟨C7_license_alert_repetition.1 _ _ [] ⟨0, 0, 0, ⟨"Suspended", "P"⟩⟩ rfl rfl (by decide),
   C7_license_alert_repetition.2 _ _ _ _ _ _ []
     ⟨0, 0, 0, ⟨"Suspended", "P"⟩⟩ ⟨0, 0, 0, ⟨"Suspended", "P"⟩⟩ ⟨0, 0, 0, ⟨"Suspended", "P"⟩⟩
     rfl rfl rfl rfl rfl rfl rfl rfl rfl⟩

/-- Claim C9: each timer tick makes two independent `get_data` calls —
the license half sees only the first snapshot, the diff half only the
second — so a login failure in either half leaves the other half's
behaviour (alerts, map update) intact. -/
theorem C9_two_fetches_per_cycle (i1 i2 : FetchInput) (prev : StatusMap) :
    (i1.loginOk = false →
      poll_status i1 i2 prev =
        (Except.ok (notify_server_status prev (get_data i2).1).1,
         (notify_server_status prev (get_data i2).1).2)) ∧
    (∀ dash, i1.loginOk = true → i1.dashboardResp = FetchResp.ok dash →
      i2.loginOk = false →
      poll_status i1 i2 prev =
        (Except.ok (if dash.license.status ≠ "Active"
            then [⟨Dest.channel, Payload.licenseInactive⟩] else []),
         prev)) ∧
    (∀ dash, i1.loginOk = true → i1.dashboardResp = FetchResp.ok dash →
      i2.loginOk = true →
      poll_status i1 i2 prev =
        (Except.ok ((if dash.license.status ≠ "Active"
            then [⟨Dest.channel, Payload.licenseInactive⟩] else []) ++
          (statusLoop prev (serversOf i2.serversResp) []).1),
         (statusLoop prev (serversOf i2.serversResp) []).2)) := by
  refine ⟨fun h => ?_, fun dash h1 h2 h3 => ?_, fun dash h1 h2 h3 => ?_⟩
  · simp [poll_status, get_data_fst, h, notify_if_license_inactive]
  · by_cases hA : dash.license.status = "Active" <;>
      simp [poll_status, get_data_fst, h1, h2, h3, dashOf,
        notify_if_license_inactive, notify_server_status, hA]
  · by_cases hA : dash.license.status = "Active" <;>
      simp [poll_status, get_data_fst, h1, h2, h3, dashOf,
        notify_if_license_inactive, notify_server_status, hA]

/-- Claim C9 witness: the three independence cases at concrete inputs. -/
theorem C9_two_fetches_per_cycle_witness :
    (poll_status ⟨false, FetchResp.nonJson, FetchResp.nonJson⟩
        ⟨true, FetchResp.nonJson, FetchResp.ok []⟩ [("A", "online")] =
      (Except.ok (notify_server_status [("A", "online")]
          (get_data ⟨true, FetchResp.nonJson, FetchResp.ok []⟩).1).1,
       (notify_server_status [("A", "online")]
          (get_data ⟨true, FetchResp.nonJson, FetchResp.ok []⟩).1).2)) ∧
    (poll_status ⟨true, FetchResp.ok ⟨0, 0, 0, ⟨"Suspended", "P"⟩⟩, FetchResp.nonJson⟩
        ⟨false, FetchResp.nonJson, FetchResp.nonJson⟩ [("A", "online")] =
      (Except.ok (if ("Suspended" : String) ≠ "Active"
          then [⟨Dest.channel, Payload.licenseInactive⟩] else []),
       [("A", "online")])) ∧
    (poll_status ⟨true, FetchResp.ok ⟨0, 0, 0, ⟨"Active", "P"⟩⟩, FetchResp.nonJson⟩
        ⟨true, FetchResp.nonJson, FetchResp.ok []⟩ [("A", "online")] =
      (Except.ok ((if ("Active" : String) ≠ "Active"
          then [⟨Dest.channel, Payload.licenseInactive⟩] else []) ++
        (statusLoop [("A", "online")] (serversOf (FetchResp.ok [])) []).1),
       (statusLoop [("A", "online")] (serversOf (FetchResp.ok [])) []).2)) :=
  ⟨(C9_two_fetches_per_cycle _ _ _).1 rfl,
   (C9_two_fetches_per_cycle _ _ _).2.1 ⟨0, 0, 0, ⟨"Suspended", "P"⟩⟩ rfl rfl rfl,
   (C9_two_fetches_per_cycle _ _ _).2.2 ⟨0, 0, 0, ⟨"Active", "P"⟩⟩ rfl rfl rfl⟩

/-- Claim C10: handling `/status` leaves the `StatusMap` exactly as it
was (the handler never touches it), sends no DEGRADED, RECOVERED or
license alert — every delivered message is a snapshot report to the
requesting chat — and on fetch failure sends nothing. -/
theorem C10_status_request_frame (i : FetchInput) (prev : StatusMap) :
    (send_report i prev).2 = prev ∧
    (∀ m ∈ sentMsgs (send_report i prev).1,
      m.dest = Dest.requester ∧ msgName m = none ∧ isLicenseMsg m = false) ∧
    (i.loginOk = false → (send_report i prev).1 = Except.ok []) := by
  obtain ⟨lo, dr, sr⟩ := i
  refine ⟨?_, ?_, ?_⟩
  · cases lo <;> cases dr <;> simp [send_report, get_data]
  · intro m hm
    cases lo <;> cases dr <;> simp [send_report, get_data, sentMsgs] at hm
    all_goals (subst hm; exact ⟨rfl, rfl, rfl⟩)
  · intro h
    subst h
    simp [send_report, get_data]

/-- Claim C10 witness: a failed-login `/status` request leaves a
concrete map untouched and replies with nothing. -/
theorem C10_status_request_frame_witness :
    (send_report ⟨false, FetchResp.nonJson, FetchResp.nonJson⟩ [("A", "online")]).2 =
      [("A", "online")] ∧
    (send_report ⟨false, FetchResp.nonJson, FetchResp.nonJson⟩ [("A", "online")]).1 =
      Except.ok [] :=
  ⟨(C10_status_request_frame _ _).1, (C10_status_request_frame _ _).2.2 rfl⟩

end StreamBot
